import Mathlib

/-!
Verification of the pipeline orchestration core of `src/main.py`
(LangGraph question-answering pipeline: acquire input, analyze intention,
generate answer, render PDF, send mail).

The shallow embedding below translates the Python source directly:

* `AppState` is the `AppState` TypedDict (all fields optional, since a
  LangGraph state key may be absent until some node returns it).
* Each graph node (`get_user_data`, `analyze_intention`, `generate_answer`,
  `process_outputs`) becomes a function from the current state to a pair of
  an event trace (the externally observable side effects it performs) and
  either a partial state update (a dict of the keys it returns) or a Python
  exception.
* Nondeterministic external behaviour (what the language model returns,
  whether PDF generation or SMTP succeed, the process environment variables)
  is captured in an `Env` record: a run of the pipeline is a pure function
  of the `Env`.
* The graph wiring of `workflow.add_edge` (lines 169-173 of the source) is a
  strictly linear chain with no conditional edges, embedded by `invokeGraph`.
* The Python literal written as a pair of braces directly enclosing another
  pair of braces (source lines 137, 157 and 180) denotes a set containing an
  empty dict; a dict is unhashable, so evaluating that literal raises
  `TypeError: unhashable type: dict`.  This is embedded by
  `setOfDictLiteral`.
-/

set_option maxRecDepth 100000

namespace ModeloIA

/-- Python truthiness of an optional string: `None` and the empty string are
falsy, every other string is truthy.  Used for `state.get("error")`,
`if not all([sender_email, password])` and `if pdf_path:`. -/
def truthy : Option String → Bool
  | none => false
  | some s => s != ""

/-- The `AppState` TypedDict of the source (lines 18-24).  In a LangGraph
state a key may be absent until some node has returned it, hence `Option`. -/
structure AppState where
  question : Option String
  email : Option String
  intention : Option String
  answer : Option String
  error : Option String
deriving DecidableEq

/-- The state where every key is absent (the intended `app.invoke` input). -/
def emptyState : AppState := ⟨none, none, none, none, none⟩

/-- LangGraph merge of a node's returned partial update `u` into the current
state `s`: every key present in `u` overwrites, every other key is kept. -/
def mergeState (s u : AppState) : AppState :=
  ⟨u.question <|> s.question, u.email <|> s.email,
   u.intention <|> s.intention, u.answer <|> s.answer, u.error <|> s.error⟩

/-- Python exceptions that the embedded code can raise. -/
inductive PyError where
  | typeError (msg : String)
  | keyError (key : String)
  | valueError (msg : String)
deriving DecidableEq

/-- Externally observable side effects of a run. -/
inductive Event where
  | llmCallIntent (prompt : String)
  | llmCallAnswer (prompt : String)
  | renderCall (title content filename : String)
  | report (msg : String)
  | emailSend (recipient subject body : String)
  | fileDelete (path : String)
deriving DecidableEq

/-- The Python literal at source lines 137, 157 and 180: a set containing an
empty dict.  Dicts are unhashable, so evaluating it raises
`TypeError: unhashable type: dict`. -/
def setOfDictLiteral : Except PyError AppState :=
  .error (.typeError "unhashable type: dict")

/-- Reads a non-empty run of decimal digits as a number; `none` if any
character is not a decimal digit. -/
def digitsToNat (cs : List Char) (acc : Nat) : Option Nat :=
  match cs with
  | [] => some acc
  | c :: rest =>
    if c.isDigit then digitsToNat rest (acc * 10 + (c.toNat - 48))
    else none

/-- Python `int()` applied to a string (surrounding whitespace stripped, an
optional sign, then a non-empty run of decimal digits).  `none` models the
`ValueError` that `int()` raises on any other string.  Used for
`int(os.getenv("EMAIL_PORT", 587))`. -/
def pyInt (s : String) : Option Int :=
  match ((s.data.dropWhile Char.isWhitespace).reverse.dropWhile Char.isWhitespace).reverse with
  | [] => none
  | c :: rest =>
    if c = '-' then
      match rest with
      | [] => none
      | _ => (digitsToNat rest 0).map (fun n => -(n : Int))
    else if c = '+' then
      match rest with
      | [] => none
      | _ => (digitsToNat rest 0).map (fun n => (n : Int))
    else (digitsToNat (c :: rest) 0).map (fun n => (n : Int))

/-- The mail-related process environment (`EMAIL_HOST_USER`,
`EMAIL_HOST_PASSWORD`, `EMAIL_HOST`, `EMAIL_PORT`), each possibly absent. -/
structure EmailCfg where
  emailHostUser : Option String
  emailHostPassword : Option String
  emailHost : Option String
  emailPort : Option String

/-- The external world a run interacts with: the two user inputs, the
outcome of the two language-model calls (`Except.error` models the client
raising), whether PDF generation succeeds, the mail configuration, and
whether the SMTP session (connect, starttls, login, sendmail) succeeds. -/
structure Env where
  inputQuestion : String
  inputEmail : String
  llmIntent : Except String String
  llmAnswer : Except String String
  pdfOk : Bool
  cfg : EmailCfg
  smtpOk : Bool

/-- `create_pdf` (source lines 27-48): the renderer is invoked with the
given title and content; on success it returns the filename, on any
exception it prints an error and returns `None`. -/
def create_pdf (renderOk : Bool) (title content filename : String) :
    List Event × Option String :=
  if renderOk then
    ([Event.renderCall title content filename], some filename)
  else
    ([Event.renderCall title content filename,
      Event.report "[ERROR] No se pudo crear el PDF"], none)

/-- The credentials error printed at source line 58. -/
def credErrMsg : String := "[ERROR] Credenciales de correo no configuradas en .env."

/-- `send_email_with_attachment` (source lines 50-89).  Reads the four
mail environment variables (host and port fall back to defaults
`smtp.gmail.com` and `587`; a present but non-integer port makes `int()`
raise `ValueError` at line 55, before anything else).  Then the credentials
check of line 57 (sender or password falsy, or sender equal to the
placeholder address) prints an error and returns; a missing attachment or a
failing SMTP session are caught and printed; in every caught case the
function returns `None` (`Except.ok ()`). -/
def send_email_with_attachment (cfg : EmailCfg) (attachmentExists smtpOk : Bool)
    (recipient subject body attachment_path : String) :
    List Event × Except PyError Unit :=
  let sender_email := cfg.emailHostUser
  let password := cfg.emailHostPassword
  match (match cfg.emailPort with | none => some (587 : Int) | some s => pyInt s) with
  | none => ([], .error (.valueError "invalid literal for int() with base 10"))
  | some _smtp_port =>
    if !(truthy sender_email) || !(truthy password)
        || sender_email == some "tu_correo@gmail.com" then
      ([Event.report credErrMsg], .ok ())
    else if !attachmentExists then
      ([Event.report ("[ERROR] Archivo adjunto no encontrado en: " ++ attachment_path)],
       .ok ())
    else if smtpOk then
      ([Event.emailSend recipient subject body], .ok ())
    else
      ([Event.report "[ERROR] Ocurrió un error al enviar el correo"], .ok ())

/-- `get_user_data` (source lines 102-107): reads the question and the
address from the user and returns them as the partial update. -/
def get_user_data (env : Env) (_state : AppState) :
    List Event × Except PyError AppState :=
  ([], .ok ⟨some env.inputQuestion, some env.inputEmail, none, none, none⟩)

/-- The intent-analysis prompt built at source line 112. -/
def intentPrompt (q : String) : String :=
  "Analiza y resume en una sola frase la intención principal de la siguiente pregunta: '"
    ++ q ++ "'"

/-- The error message produced at source line 119. -/
def errIntentMsg (detail : String) : String :=
  "Error analizando la intención: " ++ detail

/-- The error message produced at source line 130. -/
def errAnswerMsg (detail : String) : String :=
  "Error generando la respuesta: " ++ detail

/-- `analyze_intention` (source lines 109-119): builds the prompt from
`state["question"]` (a `KeyError` if absent, since the access is outside the
`try`), calls the model, and returns either `intention` or `error`. -/
def analyze_intention (llmIntent : Except String String) (state : AppState) :
    List Event × Except PyError AppState :=
  match state.question with
  | none => ([], .error (.keyError "question"))
  | some q =>
    match llmIntent with
    | .ok c => ([Event.llmCallIntent (intentPrompt q)],
                .ok ⟨none, none, some c, none, none⟩)
    | .error d => ([Event.llmCallIntent (intentPrompt q)],
                   .ok ⟨none, none, none, none, some (errIntentMsg d)⟩)

/-- `generate_answer` (source lines 121-130): calls the model with
`state["question"]` inside the `try` (so a `KeyError` is caught and mapped
to the same error message) and returns either `answer` or `error`. -/
def generate_answer (llmAnswer : Except String String) (state : AppState) :
    List Event × Except PyError AppState :=
  match state.question with
  | none => ([], .ok ⟨none, none, none, none, some (errAnswerMsg "'question'")⟩)
  | some q =>
    match llmAnswer with
    | .ok c => ([Event.llmCallAnswer q], .ok ⟨none, none, none, some c, none⟩)
    | .error d => ([Event.llmCallAnswer q],
                   .ok ⟨none, none, none, none, some (errAnswerMsg d)⟩)

/-- The fixed mail body built at source line 150. -/
def emailGreeting : String :=
  "Hola,\n\nAdjunto encontrarás la respuesta generada por la IA a tu pregunta.\n\nSaludos."

/-- `process_outputs` (source lines 132-157): if `state.get("error")` is
truthy it prints the error and evaluates the set-of-dict return literal
(raising `TypeError`); otherwise it reads `answer`, `question` and `email`
(`KeyError` if absent), renders the PDF titled with the first 40 characters
of the question, and if a path came back sends the mail (subject built from
the first 30 characters of the question, fixed greeting body), then deletes
the file and again evaluates the raising return literal.  If the dispatch
call itself raises, the exception propagates and the deletion is skipped. -/
def process_outputs (env : Env) (state : AppState) :
    List Event × Except PyError AppState :=
  if truthy state.error then
    ([Event.report ("[PROCESO INTERRUMPIDO] " ++ state.error.getD "")],
     setOfDictLiteral)
  else
    match state.answer with
    | none => ([], .error (.keyError "answer"))
    | some answer =>
      match state.question with
      | none => ([], .error (.keyError "question"))
      | some question =>
        match state.email with
        | none => ([], .error (.keyError "email"))
        | some email =>
          match create_pdf env.pdfOk
              ("Respuesta a: " ++ question.take 40 ++ "...") answer "respuesta_ia.pdf" with
          | (ev1, some p) =>
            if p != "" then
              match send_email_with_attachment env.cfg true env.smtpOk email
                  ("Respuesta a tu pregunta: '" ++ question.take 30 ++ "...'")
                  emailGreeting p with
              | (ev2, .error e) => (ev1 ++ ev2, .error e)
              | (ev2, .ok _) => (ev1 ++ ev2 ++ [Event.fileDelete p], setOfDictLiteral)
            else (ev1, setOfDictLiteral)
          | (ev1, none) => (ev1, setOfDictLiteral)

/-- The observable outcome of one (possibly aborted) pipeline run: the event
trace, the state after the last merged update, and the exception that
escaped, if any. -/
structure RunOut where
  events : List Event
  state : AppState
  exc : Option PyError
deriving DecidableEq

/-- One LangGraph node execution: skipped if an exception already escaped;
otherwise the node runs on the current state and its returned update is
merged (or its exception recorded). -/
def stepRun (node : AppState → List Event × Except PyError AppState)
    (acc : RunOut) : RunOut :=
  match acc.exc with
  | some _ => acc
  | none =>
    match node acc.state with
    | (ev, .ok u) => ⟨acc.events ++ ev, mergeState acc.state u, none⟩
    | (ev, .error e) => ⟨acc.events ++ ev, acc.state, some e⟩

/-- The compiled graph (source lines 159-176): the strictly linear chain
`get_user_data` → `analyze_intention` → `generate_answer` →
`process_outputs`, with no conditional edges. -/
def invokeGraph (env : Env) (init : AppState) : RunOut :=
  stepRun (process_outputs env)
    (stepRun (generate_answer env.llmAnswer)
      (stepRun (analyze_intention env.llmIntent)
        (stepRun (get_user_data env) ⟨[], init, none⟩)))

/-- A run of the graph from the empty initial state. -/
def runApp (env : Env) : RunOut := invokeGraph env emptyState

/-- The run prefix covering the three non-terminal nodes. -/
def runFirst3 (env : Env) : RunOut :=
  stepRun (generate_answer env.llmAnswer)
    (stepRun (analyze_intention env.llmIntent)
      (stepRun (get_user_data env) ⟨[], emptyState, none⟩))

/-- The state the terminal node `process_outputs` is invoked with. -/
def stateAtTerminal (env : Env) : AppState := (runFirst3 env).state

/-- `__main__` (source lines 179-181): `app.invoke` is applied to the
set-of-dict literal, whose evaluation raises before `invoke` is entered. -/
def mainRun (env : Env) : RunOut :=
  match setOfDictLiteral with
  | .error e => ⟨[], emptyState, some e⟩
  | .ok init => invokeGraph env init

/-- Module-load code at source lines 92-94: `GITHUB_TOKEN` is read from the
environment and a falsy value raises `ValueError` before the graph is even
constructed. -/
def moduleInit (githubToken : Option String) : Except PyError Unit :=
  if truthy githubToken then .ok ()
  else .error (.valueError "GITHUB_TOKEN no encontrado en el archivo .env")

/-- The whole program: module load, then `__main__`. -/
def program (githubToken : Option String) (env : Env) : RunOut :=
  match moduleInit githubToken with
  | .error e => ⟨[], emptyState, some e⟩
  | .ok _ => mainRun env

/-- Recognizer for language-model calls issued by `generate_answer`. -/
def isLlmAnswerCall : Event → Bool
  | .llmCallAnswer _ => true
  | _ => false

/-- Number of language-model calls issued by `generate_answer` in a trace. -/
def countLlmAnswerCalls (es : List Event) : Nat :=
  es.countP (fun e => isLlmAnswerCall e)

/-- Recognizer for artifact deletions. -/
def isFileDelete : Event → Bool
  | .fileDelete _ => true
  | _ => false

/-- Number of artifact deletions in a trace. -/
def countFileDeletes (es : List Event) : Nat :=
  es.countP (fun e => isFileDelete e)

/-- Recognizer for renderer invocations. -/
def isRenderCall : Event → Bool
  | .renderCall _ _ _ => true
  | _ => false

/-- Recognizer for actual mail dispatches (`server.sendmail` executed). -/
def isEmailSend : Event → Bool
  | .emailSend _ _ _ => true
  | _ => false

/-- `EMAIL_PORT` either is absent (falling back to the integer default 587)
or parses as an integer, so that line 55 of the source does not raise. -/
def portParses (cfg : EmailCfg) : Bool :=
  match cfg.emailPort with
  | none => true
  | some s => (pyInt s).isSome

/-- The exact credentials condition of source line 57: sender or password
falsy, or sender equal to the placeholder address. -/
def credMissing (cfg : EmailCfg) : Bool :=
  !(truthy cfg.emailHostUser) || !(truthy cfg.emailHostPassword)
    || cfg.emailHostUser == some "tu_correo@gmail.com"

/-- The renderer produced an artifact during the run: the terminal step got
past the error check and `create_pdf` succeeded. -/
def artifactProduced (env : Env) : Bool :=
  env.pdfOk && !(truthy (stateAtTerminal env).error)

/-! ### Helper lemmas -/

theorem append_ne_empty_left (s t : String) (h : s ≠ "") : s ++ t ≠ "" := by
  intro heq
  apply h
  apply String.ext
  have hd : (s ++ t).data = ("" : String).data := congrArg String.data heq
  rw [String.data_append] at hd
  exact (List.append_eq_nil.mp hd).1

theorem truthy_append (s t : String) (h : s ≠ "") :
    truthy (some (s ++ t)) = true := by
  simp only [truthy, bne_iff_ne, ne_eq]
  exact append_ne_empty_left s t h

theorem truthy_errIntent (d : String) : truthy (some (errIntentMsg d)) = true :=
  truthy_append _ _ (by decide)

theorem truthy_errAnswer (d : String) : truthy (some (errAnswerMsg d)) = true :=
  truthy_append _ _ (by decide)

/-- Running the three non-terminal nodes when both model calls succeed. -/
theorem runFirst3_ok_ok (q em i a : String) (pdf : Bool) (cfg : EmailCfg) (smtp : Bool) :
    runFirst3 ⟨q, em, .ok i, .ok a, pdf, cfg, smtp⟩ =
      ⟨[Event.llmCallIntent (intentPrompt q), Event.llmCallAnswer q],
       ⟨some q, some em, some i, some a, none⟩, none⟩ := rfl

/-- Running the three non-terminal nodes when the intent call fails and the
answer call succeeds: `generate_answer` still runs and sets `answer`. -/
theorem runFirst3_err_ok (q em d a : String) (pdf : Bool) (cfg : EmailCfg) (smtp : Bool) :
    runFirst3 ⟨q, em, .error d, .ok a, pdf, cfg, smtp⟩ =
      ⟨[Event.llmCallIntent (intentPrompt q), Event.llmCallAnswer q],
       ⟨some q, some em, none, some a, some (errIntentMsg d)⟩, none⟩ := rfl

/-- Running the three non-terminal nodes when the intent call succeeds and
the answer call fails. -/
theorem runFirst3_ok_err (q em i d : String) (pdf : Bool) (cfg : EmailCfg) (smtp : Bool) :
    runFirst3 ⟨q, em, .ok i, .error d, pdf, cfg, smtp⟩ =
      ⟨[Event.llmCallIntent (intentPrompt q), Event.llmCallAnswer q],
       ⟨some q, some em, some i, none, some (errAnswerMsg d)⟩, none⟩ := rfl

/-- Running the three non-terminal nodes when both model calls fail: the
second failure overwrites the first error message. -/
theorem runFirst3_err_err (q em d1 d2 : String) (pdf : Bool) (cfg : EmailCfg) (smtp : Bool) :
    runFirst3 ⟨q, em, .error d1, .error d2, pdf, cfg, smtp⟩ =
      ⟨[Event.llmCallIntent (intentPrompt q), Event.llmCallAnswer q],
       ⟨some q, some em, none, none, some (errAnswerMsg d2)⟩, none⟩ := rfl

/-- The graph run is the terminal node applied after the three others. -/
theorem runApp_eq (env : Env) :
    runApp env = stepRun (process_outputs env) (runFirst3 env) := rfl

/-- `stepRun` on a clean accumulator when the node raises. -/
theorem stepRun_error (node : AppState → List Event × Except PyError AppState)
    (evs : List Event) (st : AppState) (ev : List Event) (e : PyError)
    (h : node st = (ev, Except.error e)) :
    stepRun node ⟨evs, st, none⟩ = ⟨evs ++ ev, st, some e⟩ := by
  unfold stepRun
  simp only [h]

/-- The terminal node when the run is in a failed state: it only prints and
then evaluates the raising return literal. -/
theorem process_outputs_interrupted (env : Env) (st : AppState)
    (h : truthy st.error = true) :
    process_outputs env st =
      ([Event.report ("[PROCESO INTERRUMPIDO] " ++ st.error.getD "")],
       setOfDictLiteral) := by
  unfold process_outputs
  rw [h]
  simp

theorem pdfname_ne_empty : (("respuesta_ia.pdf" : String) != "") = true := by decide

/-- The terminal node on a healthy state (`error` absent, all inputs
present): it renders, and if the PDF came back it dispatches, deletes the
file and raises on its return literal; if the dispatch call itself raised,
the exception propagates and there is no deletion. -/
theorem process_outputs_ok_state (env : Env) (q em a : String) (io : Option String) :
    process_outputs env ⟨some q, some em, io, some a, none⟩ =
      (if env.pdfOk then
        match send_email_with_attachment env.cfg true env.smtpOk em
            ("Respuesta a tu pregunta: '" ++ q.take 30 ++ "...'") emailGreeting
            "respuesta_ia.pdf" with
        | (ev2, .error e) =>
            (Event.renderCall ("Respuesta a: " ++ q.take 40 ++ "...") a "respuesta_ia.pdf"
               :: ev2, .error e)
        | (ev2, .ok _) =>
            (Event.renderCall ("Respuesta a: " ++ q.take 40 ++ "...") a "respuesta_ia.pdf"
               :: (ev2 ++ [Event.fileDelete "respuesta_ia.pdf"]), setOfDictLiteral)
      else
        ([Event.renderCall ("Respuesta a: " ++ q.take 40 ++ "...") a "respuesta_ia.pdf",
          Event.report "[ERROR] No se pudo crear el PDF"], setOfDictLiteral)) := by
  cases hp : env.pdfOk <;>
    simp only [process_outputs, truthy, create_pdf, hp, Bool.false_eq_true, if_false,
      if_true, pdfname_ne_empty]
  rcases hs : send_email_with_attachment env.cfg true env.smtpOk em
      ("Respuesta a tu pregunta: '" ++ q.take 30 ++ "...'") emailGreeting
      "respuesta_ia.pdf" with ⟨ev2, r⟩
  cases r <;> simp [hs]

/-- Whatever state the terminal node is invoked with, its result component
is an exception: every branch ends either in the raising return literal or
in a propagated exception. -/
theorem process_outputs_raises (env : Env) (s : AppState) :
    ∃ ev e, process_outputs env s = (ev, Except.error e) := by
  unfold process_outputs
  repeat' split
  all_goals exact ⟨_, _, rfl⟩

/-- When the configured port parses, `send_email_with_attachment` always
returns `None` (every handled failure only prints), performs no artifact
deletion of its own, and issues no language-model call. -/
theorem send_email_total (cfg : EmailCfg) (att smtp : Bool) (r s b p : String)
    (h : portParses cfg = true) :
    (send_email_with_attachment cfg att smtp r s b p).2 = Except.ok ()
      ∧ countFileDeletes (send_email_with_attachment cfg att smtp r s b p).1 = 0
      ∧ countLlmAnswerCalls (send_email_with_attachment cfg att smtp r s b p).1 = 0 := by
  obtain ⟨u, pw, ho, po⟩ := cfg
  unfold send_email_with_attachment
  repeat' split
  all_goals cases po
  all_goals
    try simp_all [portParses, countFileDeletes, countLlmAnswerCalls, isFileDelete, isLlmAnswerCall]
  all_goals try (repeat' split)
  all_goals try simp_all [isFileDelete, isLlmAnswerCall]

/-! ### Claim C2 -/

/-- C2: the claim says every run completes without an unhandled exception
and with exactly one terminal outcome.  The code is wrong: `__main__`
applies `app.invoke` to the set-of-dict literal, whose evaluation raises
`TypeError: unhashable type: dict` before any step runs, and even a graph
run started on a proper empty dict always ends in an exception escaping
from the terminal node (its `return` ends in the same raising literal on
both paths).  So every run ends in an unhandled exception — neither a
delivery nor a reported failure outcome. -/
theorem c2_every_run_raises : ∀ env : Env,
    mainRun env = ⟨[], emptyState, some (PyError.typeError "unhashable type: dict")⟩
      ∧ (runApp env).exc ≠ none := by
  intro env
  refine ⟨rfl, ?_⟩
  rw [runApp_eq]
  cases h3 : (runFirst3 env).exc with
  | some e => simp [stepRun, h3]
  | none =>
    obtain ⟨ev, e, he⟩ := process_outputs_raises env (runFirst3 env).state
    simp [stepRun, h3, he]

/-! ### Claim C8 -/

/-- C8: `generate_answer` does not depend on the `intention` field: on any
two states agreeing on `question` it issues the same language-model request
and, given the same client response, returns the same result. -/
theorem c8_generate_answer_ignores_intention :
    ∀ (r : Except String String) (s1 s2 : AppState),
    s1.question = s2.question → generate_answer r s1 = generate_answer r s2 := by
  intro r s1 s2 h
  unfold generate_answer
  rw [h]

def stC8a : AppState :=
  ⟨some "What is 2+2?", some "a@b.com", some "Arithmetic question", none, none⟩

def stC8b : AppState :=
  ⟨some "What is 2+2?", none, some "A very different intention", some "stale", some "e"⟩

/-- Witness for C8 at two concrete states that differ in `intention` (and
in every other non-`question` field). -/
theorem c8_witness :
    stC8a.question = stC8b.question
      ∧ generate_answer (Except.ok "4") stC8a = generate_answer (Except.ok "4") stC8b :=
  ⟨rfl, c8_generate_answer_ignores_intention (Except.ok "4") stC8a stC8b rfl⟩

/-! ### Claim C10 -/

/-- C10: with `GITHUB_TOKEN` absent, the module-load check raises
`ValueError` before any pipeline step runs: the event trace is empty, no
state was created beyond the untouched empty one, and the pipeline's
`error` field was never used. -/
theorem c10_missing_token_fails_at_load : ∀ env : Env,
    program none env
      = ⟨[], emptyState,
         some (PyError.valueError "GITHUB_TOKEN no encontrado en el archivo .env")⟩ :=
  fun _ => rfl

/-! ### Claim C3 -/

def envC3 : Env :=
  ⟨"Q", "u@v.com", .error "boom", .ok "4", true,
   ⟨some "sender@example.com", some "secret", none, none⟩, true⟩

/-- C3 is false as stated: when the intent call fails but the answer call
succeeds, the state reaching the terminal step has BOTH `error` set and a
non-empty `answer` — the linear graph never short-circuits. -/
theorem c3_counterexample :
    (stateAtTerminal envC3).error = some (errIntentMsg "boom")
      ∧ (stateAtTerminal envC3).answer = some "4"
      ∧ ("4" : String) ≠ "" :=
  ⟨rfl, rfl, by decide⟩

/-- C3 (amended): when the pipeline reaches its terminal step, at least one
of the two holds — `error` is set, or `answer` is set to exactly the
Generate Answer model response (possibly both at once, and the response may
be the empty string). -/
theorem c3_amended_terminal_state : ∀ env : Env,
    (stateAtTerminal env).error ≠ none
      ∨ ∃ c, env.llmAnswer = Except.ok c ∧ (stateAtTerminal env).answer = some c := by
  rintro ⟨q, em, li, la, pdf, cfg, smtp⟩
  cases li with
  | ok i =>
    cases la with
    | ok a =>
      right
      exact ⟨a, rfl, by rw [stateAtTerminal, runFirst3_ok_ok]⟩
    | error d =>
      left
      rw [stateAtTerminal, runFirst3_ok_err]
      simp
  | error d =>
    cases la with
    | ok a =>
      left
      rw [stateAtTerminal, runFirst3_err_ok]
      simp
    | error d2 =>
      left
      rw [stateAtTerminal, runFirst3_err_err]
      simp

/-! ### Claim C1 -/

def envC1 : Env :=
  ⟨"What is 2+2?", "a@b.com", .error "boom", .ok "4", true,
   ⟨some "sender@example.com", some "secret", none, none⟩, true⟩

/-- C1 is false as stated: with the Analyze Intention call failing, the run
still issues one language-model call from `generate_answer` and the state
reaching the terminal step has `answer` set (non-empty), not empty. -/
theorem c1_counterexample :
    countLlmAnswerCalls (runApp envC1).events = 1
      ∧ (stateAtTerminal envC1).answer = some "4"
      ∧ (stateAtTerminal envC1).error ≠ none :=
  ⟨rfl, rfl, by decide⟩

/-- C1 (amended): the graph has no conditional edges, so after the Analyze
Intention step fails the Generate Answer step still executes — exactly one
language-model call is issued from it per run — `error` stays set in the
state reaching the terminal step, and if the answer call succeeds its
response is stored in `answer`.  (The terminal step then only reports the
error and performs no delivery side effects.) -/
theorem c1_amended_no_short_circuit : ∀ (env : Env) (d : String),
    env.llmIntent = Except.error d →
    countLlmAnswerCalls (runApp env).events = 1
      ∧ (stateAtTerminal env).error ≠ none
      ∧ ∀ c, env.llmAnswer = Except.ok c → (stateAtTerminal env).answer = some c := by
  rintro ⟨q, em, li, la, pdf, cfg, smtp⟩ d h
  cases h
  cases la with
  | ok a =>
    have hrun : runApp ⟨q, em, .error d, .ok a, pdf, cfg, smtp⟩
        = ⟨[Event.llmCallIntent (intentPrompt q), Event.llmCallAnswer q]
             ++ [Event.report ("[PROCESO INTERRUMPIDO] " ++ errIntentMsg d)],
           ⟨some q, some em, none, some a, some (errIntentMsg d)⟩,
           some (PyError.typeError "unhashable type: dict")⟩ := by
      rw [runApp_eq, runFirst3_err_ok]
      exact stepRun_error _ _ _ _ _
        (process_outputs_interrupted _ _ (truthy_errIntent d))
    refine ⟨?_, ?_, ?_⟩
    · rw [hrun]
      simp [countLlmAnswerCalls, isLlmAnswerCall]
    · rw [stateAtTerminal, runFirst3_err_ok]
      simp
    · intro c hc
      cases hc
      rw [stateAtTerminal, runFirst3_err_ok]
  | error d2 =>
    have hrun : runApp ⟨q, em, .error d, .error d2, pdf, cfg, smtp⟩
        = ⟨[Event.llmCallIntent (intentPrompt q), Event.llmCallAnswer q]
             ++ [Event.report ("[PROCESO INTERRUMPIDO] " ++ errAnswerMsg d2)],
           ⟨some q, some em, none, none, some (errAnswerMsg d2)⟩,
           some (PyError.typeError "unhashable type: dict")⟩ := by
      rw [runApp_eq, runFirst3_err_err]
      exact stepRun_error _ _ _ _ _
        (process_outputs_interrupted _ _ (truthy_errAnswer d2))
    refine ⟨?_, ?_, ?_⟩
    · rw [hrun]
      simp [countLlmAnswerCalls, isLlmAnswerCall]
    · rw [stateAtTerminal, runFirst3_err_err]
      simp
    · intro c hc
      cases hc

def envC1w : Env :=
  ⟨"Why is the sky blue?", "w@x.com", .error "boom", .ok "Rayleigh scattering", true,
   ⟨some "sender@example.com", some "secret", none, none⟩, true⟩

/-- Witness for the amended C1 at a concrete failing-intent run. -/
theorem c1_amended_witness :
    envC1w.llmIntent = Except.error "boom"
      ∧ (countLlmAnswerCalls (runApp envC1w).events = 1
          ∧ (stateAtTerminal envC1w).error ≠ none
          ∧ ∀ c, envC1w.llmAnswer = Except.ok c → (stateAtTerminal envC1w).answer = some c) :=
  ⟨rfl, c1_amended_no_short_circuit envC1w "boom" rfl⟩

/-- The events of a `stepRun` from a clean accumulator: the node's events
are appended whether or not the node raised. -/
theorem stepRun_events (node : AppState → List Event × Except PyError AppState)
    (evs : List Event) (st : AppState) :
    (stepRun node ⟨evs, st, none⟩).events = evs ++ (node st).1 := by
  unfold stepRun
  rcases h : node st with ⟨ev, r⟩
  cases r <;> simp [h]

/-- The escaping exception of a `stepRun` from a clean accumulator is
exactly the exception of the node result. -/
theorem stepRun_exc (node : AppState → List Event × Except PyError AppState)
    (evs : List Event) (st : AppState) :
    (stepRun node ⟨evs, st, none⟩).exc
      = (match (node st).2 with | .ok _ => none | .error e => some e) := by
  unfold stepRun
  rcases h : node st with ⟨ev, r⟩
  cases r <;> simp [h]

/-! ### Claim C4 -/

def envC4 : Env :=
  ⟨"What is 2+2?", "a@b.com", .ok "Arithmetic question", .ok "4", true,
   ⟨some "sender@example.com", some "secret", none, none⟩, true⟩

/-- C4 is false as stated: in scenario A the full event trace shows that
the dispatched mail subject is the expected literal, but the dispatched
mail body is the fixed Spanish greeting, not `"4"` — the answer `"4"` goes
into the rendered PDF instead. -/
theorem c4_counterexample :
    (runApp envC4).events
      = [Event.llmCallIntent (intentPrompt "What is 2+2?"),
         Event.llmCallAnswer "What is 2+2?",
         Event.renderCall "Respuesta a: What is 2+2?..." "4" "respuesta_ia.pdf",
         Event.emailSend "a@b.com" "Respuesta a tu pregunta: 'What is 2+2?...'"
           emailGreeting,
         Event.fileDelete "respuesta_ia.pdf"]
      ∧ emailGreeting ≠ "4" :=
  ⟨rfl, by decide⟩

/-- C4 (amended): in scenario A the mail is dispatched to `a@b.com` with a
subject containing the literal prefix from the claim, and the answer `"4"`
is the body of the rendered document, while the mail body is the fixed
greeting; the terminal step afterwards raises `TypeError` on its return
literal instead of completing cleanly. -/
theorem c4_amended_scenario_a :
    Event.emailSend "a@b.com" "Respuesta a tu pregunta: 'What is 2+2?...'" emailGreeting
        ∈ (runApp envC4).events
      ∧ Event.renderCall "Respuesta a: What is 2+2?..." "4" "respuesta_ia.pdf"
          ∈ (runApp envC4).events
      ∧ (runApp envC4).exc = some (PyError.typeError "unhashable type: dict") :=
  ⟨by decide, by decide, rfl⟩

/-! ### Claim C7 -/

/-- C7: in every run in which mail is actually dispatched, the renderer was
invoked with a title made of the first 40 characters of the question
followed by an ellipsis marker, and with body equal exactly to the model's
answer. -/
theorem c7_render_receives_title_and_answer : ∀ env : Env,
    (runApp env).events.any isEmailSend = true →
    ∃ a, env.llmAnswer = Except.ok a
      ∧ Event.renderCall ("Respuesta a: " ++ env.inputQuestion.take 40 ++ "...") a
          "respuesta_ia.pdf" ∈ (runApp env).events := by
  rintro ⟨q, em, li, la, pdf, cfg, smtp⟩ h
  cases li with
  | error d =>
    cases la with
    | ok a =>
      rw [runApp_eq, runFirst3_err_ok, stepRun_events,
        process_outputs_interrupted _ _ (truthy_errIntent d)] at h
      simp [isEmailSend] at h
    | error d2 =>
      rw [runApp_eq, runFirst3_err_err, stepRun_events,
        process_outputs_interrupted _ _ (truthy_errAnswer d2)] at h
      simp [isEmailSend] at h
  | ok i =>
    cases la with
    | error d2 =>
      rw [runApp_eq, runFirst3_ok_err, stepRun_events,
        process_outputs_interrupted _ _ (truthy_errAnswer d2)] at h
      simp [isEmailSend] at h
    | ok a =>
      refine ⟨a, rfl, ?_⟩
      have hev : (runApp ⟨q, em, .ok i, .ok a, pdf, cfg, smtp⟩).events
          = [Event.llmCallIntent (intentPrompt q), Event.llmCallAnswer q]
              ++ (process_outputs ⟨q, em, .ok i, .ok a, pdf, cfg, smtp⟩
                    ⟨some q, some em, some i, some a, none⟩).1 := by
        rw [runApp_eq, runFirst3_ok_ok, stepRun_events]
      rw [hev, process_outputs_ok_state]
      cases pdf with
      | false => simp
      | true =>
        rcases hs : send_email_with_attachment cfg true smtp em
            ("Respuesta a tu pregunta: '" ++ q.take 30 ++ "...'") emailGreeting
            "respuesta_ia.pdf" with ⟨ev2, r⟩
        cases r <;> simp [hs]

def envC7 : Env :=
  ⟨"0123456789012345678901234567890123456789ABCDEFGHIJKLMNOPQRSTUVWXYZabcdefghijklmnopqrstuvwxyz-_.!?",
   "u@v.com", .ok "A benchmark intention", .ok "The answer text", true,
   ⟨some "sender@example.com", some "secret", none, none⟩, true⟩

/-- Witness for C7 at a concrete delivered run whose question has close to
100 characters: the rendered title carries only its first 40 characters
plus the ellipsis marker, and the rendered body is exactly the answer. -/
theorem c7_witness :
    (runApp envC7).events.any isEmailSend = true
      ∧ ∃ a, envC7.llmAnswer = Except.ok a
          ∧ Event.renderCall ("Respuesta a: " ++ envC7.inputQuestion.take 40 ++ "...") a
              "respuesta_ia.pdf" ∈ (runApp envC7).events :=
  ⟨by decide, c7_render_receives_title_and_answer envC7 (by decide)⟩

/-- Full run when the intent call fails and the answer call succeeds. -/
theorem runApp_err_ok_eq (q em d a : String) (pdf : Bool) (cfg : EmailCfg) (smtp : Bool) :
    runApp ⟨q, em, .error d, .ok a, pdf, cfg, smtp⟩ =
      ⟨[Event.llmCallIntent (intentPrompt q), Event.llmCallAnswer q,
        Event.report ("[PROCESO INTERRUMPIDO] " ++ errIntentMsg d)],
       ⟨some q, some em, none, some a, some (errIntentMsg d)⟩,
       some (PyError.typeError "unhashable type: dict")⟩ := by
  rw [runApp_eq, runFirst3_err_ok,
    stepRun_error _ _ _ _ _ (process_outputs_interrupted _ _ (truthy_errIntent d))]
  rfl

/-- Full run when the intent call succeeds and the answer call fails. -/
theorem runApp_ok_err_eq (q em i d : String) (pdf : Bool) (cfg : EmailCfg) (smtp : Bool) :
    runApp ⟨q, em, .ok i, .error d, pdf, cfg, smtp⟩ =
      ⟨[Event.llmCallIntent (intentPrompt q), Event.llmCallAnswer q,
        Event.report ("[PROCESO INTERRUMPIDO] " ++ errAnswerMsg d)],
       ⟨some q, some em, some i, none, some (errAnswerMsg d)⟩,
       some (PyError.typeError "unhashable type: dict")⟩ := by
  rw [runApp_eq, runFirst3_ok_err,
    stepRun_error _ _ _ _ _ (process_outputs_interrupted _ _ (truthy_errAnswer d))]
  rfl

/-- Full run when both model calls fail. -/
theorem runApp_err_err_eq (q em d1 d2 : String) (pdf : Bool) (cfg : EmailCfg) (smtp : Bool) :
    runApp ⟨q, em, .error d1, .error d2, pdf, cfg, smtp⟩ =
      ⟨[Event.llmCallIntent (intentPrompt q), Event.llmCallAnswer q,
        Event.report ("[PROCESO INTERRUMPIDO] " ++ errAnswerMsg d2)],
       ⟨some q, some em, none, none, some (errAnswerMsg d2)⟩,
       some (PyError.typeError "unhashable type: dict")⟩ := by
  rw [runApp_eq, runFirst3_err_err,
    stepRun_error _ _ _ _ _ (process_outputs_interrupted _ _ (truthy_errAnswer d2))]
  rfl

/-- In an all-successful run (both model calls succeed, port parses) the
number of artifact deletions equals 1 when the PDF was produced, 0 when the
renderer failed. -/
theorem runApp_ok_ok_deletes (q em i a : String) (pdf : Bool) (cfg : EmailCfg) (smtp : Bool)
    (h : portParses cfg = true) :
    countFileDeletes (runApp ⟨q, em, .ok i, .ok a, pdf, cfg, smtp⟩).events
      = (if pdf then 1 else 0) := by
  rw [runApp_eq, runFirst3_ok_ok, stepRun_events, process_outputs_ok_state]
  cases pdf with
  | false => simp [countFileDeletes, isFileDelete]
  | true =>
    rcases hs : send_email_with_attachment cfg true smtp em
        ("Respuesta a tu pregunta: '" ++ q.take 30 ++ "...'") emailGreeting
        "respuesta_ia.pdf" with ⟨ev2, r⟩
    have htot := send_email_total cfg true smtp em
        ("Respuesta a tu pregunta: '" ++ q.take 30 ++ "...'") emailGreeting
        "respuesta_ia.pdf" h
    rw [hs] at htot
    obtain ⟨hok, hdel, -⟩ := htot
    cases r with
    | error e => exact absurd hok (by simp)
    | ok u =>
      simp_all [countFileDeletes, List.countP_append, List.countP_cons, isFileDelete]

/-- In an all-successful run the terminal node always ends in the
`TypeError` of its return literal (the dispatch call returned normally). -/
theorem runApp_ok_ok_exc (q em i a : String) (pdf : Bool) (cfg : EmailCfg) (smtp : Bool)
    (h : portParses cfg = true) :
    (runApp ⟨q, em, .ok i, .ok a, pdf, cfg, smtp⟩).exc
      = some (PyError.typeError "unhashable type: dict") := by
  rw [runApp_eq, runFirst3_ok_ok, stepRun_exc, process_outputs_ok_state]
  cases pdf with
  | false => simp [setOfDictLiteral]
  | true =>
    rcases hs : send_email_with_attachment cfg true smtp em
        ("Respuesta a tu pregunta: '" ++ q.take 30 ++ "...'") emailGreeting
        "respuesta_ia.pdf" with ⟨ev2, r⟩
    have htot := send_email_total cfg true smtp em
        ("Respuesta a tu pregunta: '" ++ q.take 30 ++ "...'") emailGreeting
        "respuesta_ia.pdf" h
    rw [hs] at htot
    cases r with
    | error e => exact absurd htot.1 (by simp)
    | ok u => simp [hs, setOfDictLiteral]

/-! ### Claim C5 -/

def envC5x : Env :=
  ⟨"Q5", "u@v.com", .ok "Some intention", .ok "Some answer", true,
   ⟨some "sender@example.com", some "secret", none, some "not-a-number"⟩, true⟩

/-- C5 is false as stated: with `EMAIL_PORT` set to a non-integer string,
the renderer produces the artifact but the dispatch call raises
`ValueError` at its `int()` conversion, so `os.remove` is never reached —
the artifact is deleted zero times on that exit path of the dispatch
call. -/
theorem c5_counterexample :
    artifactProduced envC5x = true
      ∧ (runApp envC5x).events.any isRenderCall = true
      ∧ countFileDeletes (runApp envC5x).events = 0
      ∧ (runApp envC5x).exc
          = some (PyError.valueError "invalid literal for int() with base 10") :=
  ⟨rfl, rfl, rfl, rfl⟩

/-- C5 (amended): provided the configured port, when present, parses as an
integer (so the dispatch call returns instead of raising), every run
deletes the rendered artifact exactly once when one was produced, and never
deletes anything otherwise — regardless of the dispatch outcome. -/
theorem c5_amended_cleanup : ∀ env : Env,
    portParses env.cfg = true →
    countFileDeletes (runApp env).events = (if artifactProduced env then 1 else 0) := by
  rintro ⟨q, em, li, la, pdf, cfg, smtp⟩ h
  cases li with
  | error d =>
    cases la with
    | ok a =>
      rw [runApp_err_ok_eq]
      simp [countFileDeletes, isFileDelete, artifactProduced, stateAtTerminal,
        runFirst3_err_ok, truthy_errIntent]
    | error d2 =>
      rw [runApp_err_err_eq]
      simp [countFileDeletes, isFileDelete, artifactProduced, stateAtTerminal,
        runFirst3_err_err, truthy_errAnswer]
  | ok i =>
    cases la with
    | error d2 =>
      rw [runApp_ok_err_eq]
      simp [countFileDeletes, isFileDelete, artifactProduced, stateAtTerminal,
        runFirst3_ok_err, truthy_errAnswer]
    | ok a =>
      have hart : artifactProduced ⟨q, em, .ok i, .ok a, pdf, cfg, smtp⟩ = pdf := by
        simp [artifactProduced, stateAtTerminal, runFirst3_ok_ok, truthy]
      rw [hart, runApp_ok_ok_deletes _ _ _ _ _ _ _ h]

def envC5w : Env :=
  ⟨"Q5", "u@v.com", .ok "Some intention", .ok "Some answer", true,
   ⟨some "sender@example.com", some "secret", none, some "2525"⟩, true⟩

/-- Witness for the amended C5 at a concrete run with a parsing port. -/
theorem c5_amended_witness :
    portParses envC5w.cfg = true
      ∧ countFileDeletes (runApp envC5w).events
          = (if artifactProduced envC5w then 1 else 0) :=
  ⟨by decide, c5_amended_cleanup envC5w (by decide)⟩

/-! ### Claim C6 -/

def cfgC6 : EmailCfg := ⟨some "sender@example.com", some "secret", none, none⟩

/-- C6 is false as stated: with host and port both absent from the
configuration (only address and secret present), the dispatch is attempted
— the defaults `smtp.gmail.com`/`587` are used — instead of failing with
`CredentialsMissing`. -/
theorem c6_counterexample :
    cfgC6.emailHost = none ∧ cfgC6.emailPort = none
      ∧ send_email_with_attachment cfgC6 true true "a@b.com" "Subject" "Body" "f.pdf"
          = ([Event.emailSend "a@b.com" "Subject" "Body"], Except.ok ()) :=
  ⟨rfl, rfl, rfl⟩

/-- C6 (amended): provided the configured port, when present, parses as an
integer (otherwise `int()` raises first), the dispatch fails with the
credentials error exactly when the sender address or secret is absent or
empty or the address equals the placeholder `tu_correo@gmail.com` — host
and port are never checked, they fall back to defaults — and otherwise the
dispatch is attempted (reaching the attachment and SMTP stages). -/
theorem c6_amended_credential_check :
    ∀ (cfg : EmailCfg) (att smtp : Bool) (r s b p : String),
    portParses cfg = true →
    (credMissing cfg = true →
        send_email_with_attachment cfg att smtp r s b p
          = ([Event.report credErrMsg], Except.ok ()))
      ∧ (credMissing cfg = false → att = true → smtp = true →
          send_email_with_attachment cfg att smtp r s b p
            = ([Event.emailSend r s b], Except.ok ()))
      ∧ (credMissing cfg = false → att = false →
          send_email_with_attachment cfg att smtp r s b p
            = ([Event.report ("[ERROR] Archivo adjunto no encontrado en: " ++ p)],
               Except.ok ()))
      ∧ (credMissing cfg = false → att = true → smtp = false →
          send_email_with_attachment cfg att smtp r s b p
            = ([Event.report "[ERROR] Ocurrió un error al enviar el correo"],
               Except.ok ())) := by
  rintro ⟨u, pw, ho, po⟩ att smtp r s b p h
  cases po with
  | none =>
    cases hc : credMissing ⟨u, pw, ho, none⟩ <;>
      cases att <;> cases smtp <;>
        simp_all [credMissing, send_email_with_attachment]
  | some sp =>
    have h2 : (pyInt sp).isSome = true := by simpa [portParses] using h
    obtain ⟨n, hn⟩ := Option.isSome_iff_exists.mp h2
    cases hc : credMissing ⟨u, pw, ho, some sp⟩ <;>
      cases att <;> cases smtp <;>
        simp_all [credMissing, send_email_with_attachment, hn]

def cfgC6w : EmailCfg :=
  ⟨some "tu_correo@gmail.com", some "secret", some "smtp.example.com", some "587"⟩

/-- Witness for the amended C6: the placeholder sender address makes the
dispatch fail with the credentials error. -/
theorem c6_amended_witness :
    portParses cfgC6w = true ∧ credMissing cfgC6w = true
      ∧ send_email_with_attachment cfgC6w true true "a@b.com" "Subject" "Body" "f.pdf"
          = ([Event.report credErrMsg], Except.ok ()) :=
  ⟨by decide, by decide,
   (c6_amended_credential_check cfgC6w true true "a@b.com" "Subject" "Body" "f.pdf"
     (by decide)).1 (by decide)⟩

/-! ### Claim C9 -/

def cfgC9 : EmailCfg := ⟨some "sender@example.com", some "secret", none, some "abc"⟩

/-- C9 is false as stated: the mail-sending operation can raise after all —
with `EMAIL_PORT` set to a non-integer string, `int()` at line 55 raises
`ValueError` before any of the caught failure modes, and the exception
propagates out of the function. -/
theorem c9_counterexample :
    send_email_with_attachment cfgC9 true true "a@b.com" "Subject" "Body" "f.pdf"
      = ([], Except.error (PyError.valueError "invalid literal for int() with base 10")) :=
  rfl

/-- C9 (amended): provided the configured port, when present, parses as an
integer, the mail-sending operation always returns `None` — the enumerated
failure modes (missing credentials, missing attachment, SMTP error) are
caught and only printed — and consequently the terminal step cannot observe
the dispatch outcome: its escaping exception and its number of artifact
deletions are identical whether the SMTP session succeeds or fails. -/
theorem c9_amended_send_total :
    ∀ (cfg : EmailCfg) (att smtp : Bool) (r s b p : String),
    portParses cfg = true →
    (send_email_with_attachment cfg att smtp r s b p).2 = Except.ok ()
      ∧ ∀ (q em : String) (li la : Except String String) (pdf smtp1 smtp2 : Bool),
          (runApp ⟨q, em, li, la, pdf, cfg, smtp1⟩).exc
              = (runApp ⟨q, em, li, la, pdf, cfg, smtp2⟩).exc
            ∧ countFileDeletes (runApp ⟨q, em, li, la, pdf, cfg, smtp1⟩).events
              = countFileDeletes (runApp ⟨q, em, li, la, pdf, cfg, smtp2⟩).events := by
  intro cfg att smtp r s b p h
  refine ⟨(send_email_total cfg att smtp r s b p h).1, ?_⟩
  intro q em li la pdf smtp1 smtp2
  cases li with
  | error d =>
    cases la with
    | ok a =>
      rw [runApp_err_ok_eq, runApp_err_ok_eq]
      exact ⟨rfl, rfl⟩
    | error d2 =>
      rw [runApp_err_err_eq, runApp_err_err_eq]
      exact ⟨rfl, rfl⟩
  | ok i =>
    cases la with
    | error d2 =>
      rw [runApp_ok_err_eq, runApp_ok_err_eq]
      exact ⟨rfl, rfl⟩
    | ok a =>
      refine ⟨?_, ?_⟩
      · rw [runApp_ok_ok_exc _ _ _ _ _ _ _ h, runApp_ok_ok_exc _ _ _ _ _ _ _ h]
      · rw [runApp_ok_ok_deletes _ _ _ _ _ _ _ h, runApp_ok_ok_deletes _ _ _ _ _ _ _ h]

def cfgC9w : EmailCfg := ⟨some "sender@example.com", some "secret", none, some "465"⟩

/-- Witness for the amended C9: with a parsing port the dispatch returns
`None` even when the SMTP session fails, and the terminal step behaves
identically either way. -/
theorem c9_amended_witness :
    portParses cfgC9w = true
      ∧ ((send_email_with_attachment cfgC9w true false "a@b.com" "S" "B" "f.pdf").2
            = Except.ok ()
          ∧ ∀ (q em : String) (li la : Except String String) (pdf smtp1 smtp2 : Bool),
              (runApp ⟨q, em, li, la, pdf, cfgC9w, smtp1⟩).exc
                  = (runApp ⟨q, em, li, la, pdf, cfgC9w, smtp2⟩).exc
                ∧ countFileDeletes (runApp ⟨q, em, li, la, pdf, cfgC9w, smtp1⟩).events
                  = countFileDeletes (runApp ⟨q, em, li, la, pdf, cfgC9w, smtp2⟩).events) :=
  ⟨by decide, c9_amended_send_total cfgC9w true false "a@b.com" "S" "B" "f.pdf" (by decide)⟩

end ModeloIA
